import Mathlib

/-!
Shallow embedding of the EuroBG license server (src/server.js).

The server exposes five stateful HTTP handlers over a single Supabase table
of license rows:

* POST /webhook          — Stripe webhook: verify signature, on a
  checkout.session.completed event insert one active license row and
  best-effort annotate the Shopify order named in the session metadata.
* POST /shopify-webhook  — order-created webhook: insert one active license
  row for the payload email, annotate the order; no signature check.
* POST /generate         — bulk generation of inactive license rows.
* POST /activate         — look a row up by key, then set
  active=true, activated_at=now on every row with that key; the response
  carries the row as read before the update.
* POST /verify           — read-only lookup by key.

External collaborators are modelled as explicit parameters: the outcome of
the Stripe signature check (an Except value, since constructEvent either
throws or returns the event), the freshly generated key(s), the wall clock,
and whether the Supabase insert or update call reports an error.  The store
itself is a list of rows; Supabase insert appends, update maps over the
rows matching the key, and select-single returns a row exactly when one row
matches.  Calls to the Shopify order API are recorded as an effect list of
(orderId, licenseKey) pairs; the code catches every failure of that call,
so its outcome never influences status, store or body.
-/

namespace EuroBG

/-- A row of the licenses table.  The columns written by server.js inserts
are key, email, active and created_at; activated_at is written only by the
activate handler.  The data model also lists an optional external order
reference column; no insert in server.js sets it, so rows are created with
it null. -/
structure License where
  key : String
  email : Option String
  active : Bool
  created_at : Nat
  activated_at : Option Nat
  order_ref : Option String
deriving DecidableEq

/-- The licenses table. -/
abbrev Store := List License

/-- Supabase select single row by key: .select().eq(key).single() returns
the row when exactly one row matches and an error otherwise. -/
def selectSingle (store : Store) (k : String) : Option License :=
  match store.filter (fun r => r.key == k) with
  | [r] => some r
  | _ => none

/-- The fields of a Stripe checkout session event that the webhook handler
reads: event.type, session.customer_email, session.customer_details.email
and session.metadata.shopify_order_id. -/
structure StripeEvent where
  type : String
  customer_email : Option String
  customer_details_email : Option String
  shopify_order_id : Option String
deriving DecidableEq

/-- session.customer_email or session.customer_details.email, with the
JavaScript truthiness of the or: an absent or empty customer_email falls
through to the details email. -/
def sessionEmail (ev : StripeEvent) : Option String :=
  match ev.customer_email with
  | some e => if e = "" then ev.customer_details_email else some e
  | none => ev.customer_details_email

/-- The row inserted by both issuance webhooks: the generated key, the
payload email, active true, created now; activated_at and the order
reference column are not part of the insert and stay null. -/
def issuedRow (key : String) (email : Option String) (now : Nat) : License :=
  ⟨key, email, true, now, none, none⟩

/-- Outcome of the Stripe webhook handler: response status, the table after
the request, and the Shopify order-update calls attempted, as
(orderId, licenseKey) pairs. -/
structure WebhookResult where
  status : Nat
  store : Store
  annots : List (String × String)
deriving DecidableEq

/-- POST /webhook.  sigResult is the outcome of
stripe.webhooks.constructEvent(req.body, sig, endpointSecret): error means
the call threw (bad signature or malformed payload) and the handler
answers 400 at once.  genKey is the uuidv4() value, now the clock,
insertFails whether the Supabase insert reports an error (in which case no
row is stored and the handler answers 500).  On a
checkout.session.completed event with a successful insert the handler
attempts the Shopify order update exactly when the session metadata holds
a truthy shopify_order_id, and answers 200; every other event type is
answered 200 with the table untouched. -/
def webhook (store : Store) (sigResult : Except String StripeEvent)
    (genKey : String) (now : Nat) (insertFails : Bool) : WebhookResult :=
  match sigResult with
  | .error _ => ⟨400, store, []⟩
  | .ok event =>
    if event.type == "checkout.session.completed" then
      if insertFails then
        ⟨500, store, []⟩
      else
        match event.shopify_order_id with
        | some oid =>
          if oid = "" then
            ⟨200, store ++ [issuedRow genKey (sessionEmail event) now], []⟩
          else
            ⟨200, store ++ [issuedRow genKey (sessionEmail event) now],
             [(oid, genKey)]⟩
        | none =>
          ⟨200, store ++ [issuedRow genKey (sessionEmail event) now], []⟩
    else
      ⟨200, store, []⟩

/-- Outcome of the generate handler: response status, the table after the
request, and the keys field of the response body (empty on error
responses). -/
structure GenerateResult where
  status : Nat
  store : Store
  keys : List String
deriving DecidableEq

/-- The email column written by the generate handler: the JavaScript
expression email or null, so an absent or empty email is stored null. -/
def genEmail (email : Option String) : Option String :=
  match email with
  | some e => if e = "" then none else some e
  | none => none

/-- POST /generate.  The handler destructures count and email from the
body and runs a plain for loop (let i = 0; i < count; i++) pushing one
generated key per iteration — count.toNat iterations, with no validation
of count whatsoever.  gen models generateLicenseKey, one fresh key per
iteration.  The rows are inserted with email converted by the
JavaScript email or null (empty string becomes null), active=false.  An
insert error answers 500, otherwise 200 with the keys. -/
def generate (store : Store) (count : Int) (email : Option String)
    (gen : Nat → String) (now : Nat) (insertFails : Bool) : GenerateResult :=
  if insertFails then
    ⟨500, store, []⟩
  else
    ⟨200,
     store ++ ((List.range count.toNat).map gen).map
       (fun k => ⟨k, genEmail email, false, now, none, none⟩),
     (List.range count.toNat).map gen⟩

/-- Response body of the activate handler. -/
inductive ActivateBody where
  /-- 400 License key is required. -/
  | missingKey
  /-- 404 Invalid license key. -/
  | invalidKey
  /-- 500 on an update error. -/
  | storeError
  /-- 200 with success true and the license row as read by the select. -/
  | success (license : License)
deriving DecidableEq

/-- Outcome of the activate handler. -/
structure ActivateResult where
  status : Nat
  store : Store
  body : ActivateBody
deriving DecidableEq

/-- The patch written by the activate handler update call:
active=true, activated_at=now; all other columns are untouched. -/
def applyActivation (now : Nat) (r : License) : License :=
  { r with active := true, activated_at := some now }

/-- POST /activate.  A missing or empty key (JavaScript if not key) is
400.  The select-single by key must return a row, else 404.  The update
sets active=true, activated_at=now on every row whose key matches; an
update error answers 500 with the table unchanged.  The 200 response body
carries the row returned by the select, i.e. the row as read before the
update. -/
def activate (store : Store) (key : Option String) (now : Nat)
    (updateFails : Bool) : ActivateResult :=
  match key with
  | none => ⟨400, store, .missingKey⟩
  | some k =>
    if k = "" then ⟨400, store, .missingKey⟩
    else
      match selectSingle store k with
      | none => ⟨404, store, .invalidKey⟩
      | some data =>
        if updateFails then ⟨500, store, .storeError⟩
        else
          ⟨200,
           store.map (fun r =>
             if r.key == k then applyActivation now r else r),
           .success data⟩

/-- Response body of the verify handler. -/
inductive VerifyBody where
  /-- 400 License key is required. -/
  | missingKey
  /-- 404 with body valid:false — no error field, no throw. -/
  | notFound
  /-- 200 with valid:true, the active flag and the row. -/
  | found (active : Bool) (license : License)
deriving DecidableEq

/-- Outcome of the verify handler.  The handler runs only a select, so the
table it leaves behind is stated explicitly to make read-onlyness a
provable equation. -/
structure VerifyResult where
  status : Nat
  store : Store
  body : VerifyBody
deriving DecidableEq

/-- POST /verify.  A missing or empty key is 400.  An unknown key (or any
select error) is answered 404 with body valid:false; a found row is
answered 200 with valid:true.  No store write occurs on any path. -/
def verify (store : Store) (key : Option String) : VerifyResult :=
  match key with
  | none => ⟨400, store, .missingKey⟩
  | some k =>
    if k = "" then ⟨400, store, .missingKey⟩
    else
      match selectSingle store k with
      | none => ⟨404, store, .notFound⟩
      | some data => ⟨200, store, .found data.active data⟩

/-- Outcome of the Shopify webhook handler. -/
structure ShopifyResult where
  status : Nat
  store : Store
  annots : List (String × String)
deriving DecidableEq

/-- POST /shopify-webhook.  The handler reads email and id straight from
the JSON body — there is no signature header and no verification of any
kind.  A falsy email or id is 400.  Otherwise it inserts one active row
for the email (500 on insert error) and calls
attachLicenseToShopifyOrder(orderId, licenseKey), whose failures are all
caught internally, then answers 200. -/
def shopifyWebhook (store : Store) (email : Option String)
    (orderId : Option String) (genKey : String) (now : Nat)
    (insertFails : Bool) : ShopifyResult :=
  match email, orderId with
  | some e, some oid =>
    if e = "" ∨ oid = "" then ⟨400, store, []⟩
    else if insertFails then ⟨500, store, []⟩
    else
      ⟨200, store ++ [issuedRow genKey (some e) now], [(oid, genKey)]⟩
  | _, _ => ⟨400, store, []⟩

/-!
## Shared lemmas
-/

/-- A successful select-single means exactly one row of the table matches
the key. -/
theorem selectSingle_eq_some {store : Store} {k : String} {data : License}
    (h : selectSingle store k = some data) :
    store.filter (fun r => r.key == k) = [data] := by
  rw [selectSingle] at h
  split at h
  · simp_all
  · simp_all

/-- Filtering by key after the activate update is the update mapped over
the rows that already matched, since the update never changes a key. -/
theorem activate_update_filter (store : Store) (k : String) (now : Nat) :
    ((store.map (fun r =>
        if r.key == k then applyActivation now r else r)).filter
      (fun r => r.key == k)) =
      (store.filter (fun r => r.key == k)).map (applyActivation now) := by
  induction store with
  | nil => rfl
  | cons a tl ih =>
    by_cases h : (a.key == k) = true
    · have h2 : ((applyActivation now a).key == k) = true := h
      simp only [List.map_cons, List.filter_cons, if_pos h, if_pos h2, ih]
    · simp only [List.map_cons, List.filter_cons, if_neg h]
      exact ih

/-- The Stripe webhook either leaves the table alone or appends exactly
one freshly issued row. -/
theorem webhook_store_shape (store : Store)
    (sig : Except String StripeEvent) (genKey : String) (now : Nat)
    (insertFails : Bool) :
    (webhook store sig genKey now insertFails).store = store ∨
    ∃ em, (webhook store sig genKey now insertFails).store =
      store ++ [issuedRow genKey em now] := by
  unfold webhook
  split
  · exact Or.inl rfl
  · split
    · split
      · exact Or.inl rfl
      · split
        · split
          · exact Or.inr ⟨_, rfl⟩
          · exact Or.inr ⟨_, rfl⟩
        · exact Or.inr ⟨_, rfl⟩
    · exact Or.inl rfl

/-!
## Theorems settling the claims
-/

/-- Claim C1: a webhook request whose Stripe signature check fails is
answered 400 with no store mutation and no Shopify call; the result does
not depend on any business field, since the handler returns before an
event value exists. -/
theorem webhook_bad_signature_rejected (store : Store) (msg : String)
    (genKey : String) (now : Nat) (insertFails : Bool) :
    webhook store (.error msg) genKey now insertFails = ⟨400, store, []⟩ :=
  rfl

/-- Claim C10: a validly signed event whose type is not
checkout.session.completed is answered 200 with the store completely
unchanged and no Shopify call. -/
theorem webhook_other_event_no_mutation (store : Store) (ev : StripeEvent)
    (genKey : String) (now : Nat) (insertFails : Bool)
    (h : ev.type ≠ "checkout.session.completed") :
    webhook store (.ok ev) genKey now insertFails = ⟨200, store, []⟩ := by
  simp only [webhook]
  rw [if_neg (by simp [h])]

/-- Witness for C10 at the concrete event type invoice.paid. -/
theorem webhook_other_event_no_mutation_witness :
    ("invoice.paid" : String) ≠ "checkout.session.completed" ∧
    webhook [] (.ok ⟨"invoice.paid", none, none, none⟩) "K" 0 false =
      ⟨200, [], []⟩ :=
  ⟨by decide,
   webhook_other_event_no_mutation [] ⟨"invoice.paid", none, none, none⟩
     "K" 0 false (by decide)⟩

/-- Claim C4: if the Supabase insert fails while handling a
checkout.session.completed event the handler answers 500, the store is
unchanged (so no key exists to be returned to any caller) and the Shopify
order update is never attempted. -/
theorem webhook_insert_failure_aborts (store : Store) (ev : StripeEvent)
    (genKey : String) (now : Nat)
    (h : ev.type = "checkout.session.completed") :
    webhook store (.ok ev) genKey now true = ⟨500, store, []⟩ := by
  simp [webhook, h]

/-- Witness for C4 at a concrete completed-checkout event. -/
theorem webhook_insert_failure_aborts_witness :
    (⟨"checkout.session.completed", some "a@b.com", none, some "1001"⟩ :
        StripeEvent).type = "checkout.session.completed" ∧
    webhook [] (.ok ⟨"checkout.session.completed", some "a@b.com", none,
        some "1001"⟩) "K" 0 true = ⟨500, [], []⟩ :=
  ⟨by decide,
   webhook_insert_failure_aborts []
     ⟨"checkout.session.completed", some "a@b.com", none, some "1001"⟩
     "K" 0 (by decide)⟩

/-- Claim C2 (code bug): the Shopify webhook handler mints a license from
a completely unauthenticated request — the handler takes no signature at
all, so the bare body {email, id} inserts an active row and answers
200. -/
theorem shopify_webhook_unauthenticated_mints :
    shopifyWebhook [] (some "x@y.z") (some "450789469") "K" 0 false =
      ⟨200,
       [⟨"K", some "x@y.z", true, 0, none, none⟩],
       [("450789469", "K")]⟩ :=
  rfl

/-- Claim C3 (code bug): delivering the same checkout.session.completed
event twice inserts two distinct rows for the one purchase — the handler
has no idempotency check, each delivery mints a fresh key. -/
theorem webhook_duplicate_event_double_mint :
    ((webhook
        ((webhook [] (.ok ⟨"checkout.session.completed", some "a@b.com",
            none, some "1001"⟩) "K1" 0 false).store)
        (.ok ⟨"checkout.session.completed", some "a@b.com", none,
            some "1001"⟩) "K2" 1 false).store.map
      (fun r => (r.email, r.key))) =
      [(some "a@b.com", "K1"), (some "a@b.com", "K2")] :=
  rfl

/-- Claim C8: verifying a well-formed key that is not in the store is
answered with body valid:false, the handler (a total function with no
throwing path on this branch) surfaces no error, and the store is left
exactly as it was. -/
theorem verify_unknown_key (store : Store) (k : String) (hk : k ≠ "")
    (hfind : selectSingle store k = none) :
    verify store (some k) = ⟨404, store, .notFound⟩ := by
  simp [verify, hk, hfind]

/-- Witness for C8: a well-formed 32-hex key unknown to a nonempty
store. -/
theorem verify_unknown_key_witness :
    ("0123456789abcdef0123456789abcdef" : String) ≠ "" ∧
    selectSingle [⟨"K", none, false, 0, none, none⟩]
      "0123456789abcdef0123456789abcdef" = none ∧
    verify [⟨"K", none, false, 0, none, none⟩]
      (some "0123456789abcdef0123456789abcdef") =
      ⟨404, [⟨"K", none, false, 0, none, none⟩], .notFound⟩ :=
  ⟨by decide, by decide,
   verify_unknown_key [⟨"K", none, false, 0, none, none⟩]
     "0123456789abcdef0123456789abcdef" (by decide) (by decide)⟩

/-- Claim C9: a successful activation answers 200 with body success and
the license row exactly as the select read it before the update — its
active and activated_at fields are the pre-activation values — while the
store row now carries active=true, activated_at=now. -/
theorem activate_returns_pre_update_record (store : Store) (k : String)
    (now : Nat) (data : License) (hk : k ≠ "")
    (hfind : selectSingle store k = some data) :
    (activate store (some k) now false).status = 200 ∧
    (activate store (some k) now false).body = .success data ∧
    ((activate store (some k) now false).store.filter
        (fun r => r.key == k)).map (fun r => (r.active, r.activated_at)) =
      [(true, some now)] := by
  have hres : activate store (some k) now false =
      ⟨200,
       store.map (fun r => if r.key == k then applyActivation now r else r),
       .success data⟩ := by
    simp [activate, hk, hfind]
  refine ⟨by rw [hres], by rw [hres], ?_⟩
  rw [hres]
  show ((store.map (fun r =>
      if r.key == k then applyActivation now r else r)).filter
    (fun r => r.key == k)).map (fun r => (r.active, r.activated_at)) = _
  rw [activate_update_filter, selectSingle_eq_some hfind]
  rfl

/-- Witness for C9: activating a freshly generated inactive key returns
the row with active=false in the response body. -/
theorem activate_returns_pre_update_record_witness :
    ("K" : String) ≠ "" ∧
    selectSingle [⟨"K", none, false, 0, none, none⟩] "K" =
      some ⟨"K", none, false, 0, none, none⟩ ∧
    (activate [⟨"K", none, false, 0, none, none⟩] (some "K") 3 false).body =
      .success ⟨"K", none, false, 0, none, none⟩ :=
  ⟨by decide, by decide,
   (activate_returns_pre_update_record [⟨"K", none, false, 0, none, none⟩]
     "K" 3 ⟨"K", none, false, 0, none, none⟩ (by decide) (by decide)).2.1⟩

/-- Claim C5 counterexample: on a validly signed completed checkout with
order reference 1001 the single inserted row carries no order reference —
the insert never writes that column, so the event order reference is not
persisted in the record. -/
theorem webhook_order_ref_not_persisted :
    ((webhook [] (.ok ⟨"checkout.session.completed", some "a@b.com", none,
        some "1001"⟩) "K" 0 false).store.map License.order_ref) = [none] ∧
    (none : Option String) ≠ some "1001" :=
  ⟨rfl, by decide⟩

/-- Claim C5 as amended: on a validly signed checkout.session.completed
event carrying an email and a nonempty order reference, with the insert
succeeding, the handler appends exactly one row with that email,
active=true, activated_at null — and order reference null, since the
insert does not persist it — and calls the Shopify order update once with
the order reference and the generated key. -/
theorem webhook_completed_issues_license (store : Store) (ev : StripeEvent)
    (e oid genKey : String) (now : Nat)
    (ht : ev.type = "checkout.session.completed")
    (he : sessionEmail ev = some e)
    (ho : ev.shopify_order_id = some oid) (hoid : oid ≠ "") :
    webhook store (.ok ev) genKey now false =
      ⟨200, store ++ [⟨genKey, some e, true, now, none, none⟩],
       [(oid, genKey)]⟩ := by
  simp [webhook, ht, he, ho, hoid, issuedRow]

/-- Witness for the amended C5 at the scenario event of the spec. -/
theorem webhook_completed_issues_license_witness :
    (⟨"checkout.session.completed", some "a@b.com", none, some "1001"⟩ :
        StripeEvent).type = "checkout.session.completed" ∧
    sessionEmail ⟨"checkout.session.completed", some "a@b.com", none,
      some "1001"⟩ = some "a@b.com" ∧
    webhook [] (.ok ⟨"checkout.session.completed", some "a@b.com", none,
        some "1001"⟩) "K" 7 false =
      ⟨200, [⟨"K", some "a@b.com", true, 7, none, none⟩], [("1001", "K")]⟩ :=
  ⟨by decide, by decide,
   webhook_completed_issues_license []
     ⟨"checkout.session.completed", some "a@b.com", none, some "1001"⟩
     "a@b.com" "1001" "K" 7 (by decide) (by decide) (by decide) (by decide)⟩

/-- Claim C6 counterexample: a generate request with count 0 is answered
200 with an empty key list, not a 4xx InvalidCountError rejection. -/
theorem generate_zero_count_accepted :
    generate [] 0 none (fun n => toString n) 0 false = ⟨200, [], []⟩ ∧
    ¬(400 ≤ 200 ∧ 200 < 500) :=
  ⟨rfl, by decide⟩

/-- Claim C6 as amended: the generate handler validates count in no way —
whatever the count, when the insert succeeds the response status is 200
and exactly count.toNat rows are inserted: count at most 0 inserts nothing
yet is still accepted, and no upper bound exists, any positive count
inserts that many rows. -/
theorem generate_no_count_validation (store : Store) (count : Int)
    (email : Option String) (gen : Nat → String) (now : Nat) :
    (generate store count email gen now false).status = 200 ∧
    (generate store count email gen now false).store.length =
      store.length + count.toNat := by
  simp [generate]

/-- Claim C7 counterexample: a webhook-issued row is already active with
activated_at null, and a subsequent activate call on it succeeds and sets
activated_at — an operation setting activated_at on a record that was
already active, with no inactive-to-active transition. -/
theorem activate_sets_activated_at_on_active :
    ((webhook [] (.ok ⟨"checkout.session.completed", some "a@b.com", none,
        none⟩) "K" 5 false).store.map
      (fun r => (r.active, r.activated_at))) = [(true, none)] ∧
    ((activate
        ((webhook [] (.ok ⟨"checkout.session.completed", some "a@b.com",
            none, none⟩) "K" 5 false).store)
        (some "K") 9 false).store.map
      (fun r => (r.active, r.activated_at))) = [(true, some 9)] :=
  ⟨by decide, by decide⟩

/-- Claim C7 as amended: activated_at is set exactly by a successful
explicit activate call, which stamps it on every row matching the key
regardless of the prior active flag; the issuance webhook and bulk
generation only ever add rows with activated_at null, never touching
existing rows. -/
theorem activated_at_only_by_activate (store : Store) (k : String)
    (now : Nat) (data : License) (hk : k ≠ "")
    (hfind : selectSingle store k = some data) :
    (((activate store (some k) now false).store.filter
        (fun r => r.key == k)).map License.activated_at = [some now]) ∧
    (∀ ev genKey t r,
      r ∈ (webhook store (.ok ev) genKey t false).store →
        r ∈ store ∨ r.activated_at = none) ∧
    (∀ cnt em gen t r,
      r ∈ (generate store cnt em gen t false).store →
        r ∈ store ∨ r.activated_at = none) := by
  refine ⟨?_, ?_, ?_⟩
  · have hres : activate store (some k) now false =
        ⟨200,
         store.map (fun r =>
           if r.key == k then applyActivation now r else r),
         .success data⟩ := by
      simp [activate, hk, hfind]
    rw [hres]
    show ((store.map (fun r =>
        if r.key == k then applyActivation now r else r)).filter
      (fun r => r.key == k)).map License.activated_at = _
    rw [activate_update_filter, selectSingle_eq_some hfind]
    rfl
  · intro ev genKey t r hr
    rcases webhook_store_shape store (.ok ev) genKey t false with h | ⟨em, h⟩
    · rw [h] at hr; exact Or.inl hr
    · rw [h] at hr
      rcases List.mem_append.mp hr with h2 | h2
      · exact Or.inl h2
      · right
        have h3 : r = issuedRow genKey em t := by simpa using h2
        rw [h3]; rfl
  · intro cnt em gen t r hr
    simp only [generate, if_neg, Bool.false_eq_true, not_false_iff,
      ite_false] at hr
    rcases List.mem_append.mp hr with h2 | h2
    · exact Or.inl h2
    · right
      rcases List.mem_map.mp h2 with ⟨kk, _, hkk⟩
      rw [← hkk]

/-- Witness for the amended C7 on a one-row store holding an inactive
generated key. -/
theorem activated_at_only_by_activate_witness :
    ("K" : String) ≠ "" ∧
    selectSingle [⟨"K", none, false, 0, none, none⟩] "K" =
      some ⟨"K", none, false, 0, none, none⟩ ∧
    (((activate [⟨"K", none, false, 0, none, none⟩] (some "K") 4
        false).store.filter (fun r => r.key == "K")).map
      License.activated_at = [some 4]) :=
  ⟨by decide, by decide,
   (activated_at_only_by_activate [⟨"K", none, false, 0, none, none⟩]
     "K" 4 ⟨"K", none, false, 0, none, none⟩ (by decide) (by decide)).1⟩

end EuroBG
